import Mathlib

/-!
Verification of the source-builder application (consulting-site repository).

The development shallowly embeds the first app variant of
`src/unnamed/part_000` (date normalizer `toDmmmyyyy` / `validateDmmmyyyy`,
module catalog `LIBRARY`, instance-store operations `addModule`,
`removeModule`, `changeRepeat`, the two renderers `buildModuleDocx` and
`ModuleCard`, and the export entry point `handleDownloadDocx`), together
with the second variant's strict validator `isValidDDMMMYYYY`.

Modelling notes.
The only host API the embedded logic touches is the JavaScript `new
Date(input)` parse inside `toDmmmyyyy`.  ECMAScript specifies the parse
only for ISO 8601 date-time strings; anything else is an
implementation-defined fallback.  `jsDateParse` below models the
specified part — the date-only ISO form `YYYY-MM-DD` with real calendar
day bounds — and models every non-ISO input as an invalid date, and the
environment is taken at UTC so that `getDate`/`getMonth`/`getFullYear`
return exactly the parsed calendar date.  Renderer output is modelled as
the ordered list of literal text strings each render path emits
(paragraph/bullet texts for the docx path, flattened JSX text nodes for
the preview path); UI control labels of the preview (the Repeat −/+ and
Remove buttons) are interactive chrome, not document prompts, and are
not part of the rendered document content.
-/

/-- Month map for DD-MMM-YYYY, `MONTHS` of the source. -/
def MONTHS : List String :=
  ["JAN","FEB","MAR","APR","MAY","JUN","JUL","AUG","SEP","OCT","NOV","DEC"]

/-- A parsed calendar date, as produced by the modelled JS `Date` parse. -/
structure JsCalDate where
  year : Nat
  month : Nat
  day : Nat
deriving DecidableEq, Repr

/-- Gregorian leap-year rule, used by the ISO `Date` parse model. -/
def isLeapYear (y : Nat) : Bool :=
  (y % 4 == 0 && y % 100 != 0) || y % 400 == 0

/-- Number of days of month `m` (1-12) of year `y`. -/
def daysInMonth (y m : Nat) : Nat :=
  if m = 2 then (if isLeapYear y then 29 else 28)
  else if m = 4 ∨ m = 6 ∨ m = 9 ∨ m = 11 then 30
  else 31

/-- Numeric value of a decimal digit character. -/
def digitVal (c : Char) : Nat := c.toNat - Char.toNat '0'

/-- Numeric value of an all-digit string, as JS `Number` on such a string. -/
def strNat (s : String) : Nat := s.data.foldl (fun a c => a * 10 + digitVal c) 0

/-- Model of `new Date(input)` restricted to what ECMAScript specifies:
the date-only ISO form `YYYY-MM-DD` with month 1-12 and day within the
real calendar month (out-of-range components give an invalid date).
Non-ISO inputs are modelled as invalid (`none`); the environment is UTC,
so a successful parse yields exactly the written calendar date. -/
def jsDateParse (s : String) : Option JsCalDate :=
  match s.data with
  | [y1, y2, y3, y4, h1, mo1, mo2, h2, d1, d2] =>
    if y1.isDigit && y2.isDigit && y3.isDigit && y4.isDigit && h1 == '-' &&
       mo1.isDigit && mo2.isDigit && h2 == '-' && d1.isDigit && d2.isDigit then
      let y := ((digitVal y1 * 10 + digitVal y2) * 10 + digitVal y3) * 10 + digitVal y4
      let mo := digitVal mo1 * 10 + digitVal mo2
      let d := digitVal d1 * 10 + digitVal d2
      if 1 ≤ mo && mo ≤ 12 && 1 ≤ d && decide (d ≤ daysInMonth y mo) then
        some { year := y, month := mo, day := d }
      else none
    else none
  | _ => none

/-- JS `String(n).padStart(2, "0")` for the day number. -/
def pad2 (n : Nat) : String := if n < 10 then "0" ++ toString n else toString n

/-- Model of JS `toUpperCase` on the character list (ASCII case mapping,
which is all the date formats exercise). -/
def jsToUpper (s : String) : String := ⟨s.data.map Char.toUpper⟩

/-- Model of JS `String.prototype.trim`: strip whitespace from both ends. -/
def jsTrim (s : String) : String :=
  ⟨((s.data.dropWhile Char.isWhitespace).reverse.dropWhile Char.isWhitespace).reverse⟩

/-- Model of the regex match `^(\d{2})-([A-Za-z]{3})-(\d{4})$` of
`toDmmmyyyy`, returning the three capture groups. -/
def ddMmmMatch (s : String) : Option (String × String × String) :=
  match s.data with
  | [d1, d2, h1, m1, m2, m3, h2, y1, y2, y3, y4] =>
    if d1.isDigit && d2.isDigit && h1 == '-' && m1.isAlpha && m2.isAlpha &&
       m3.isAlpha && h2 == '-' && y1.isDigit && y2.isDigit && y3.isDigit &&
       y4.isDigit then
      some (⟨[d1, d2]⟩, ⟨[m1, m2, m3]⟩, ⟨[y1, y2, y3, y4]⟩)
    else none
  | _ => none

/-- The date normalizer `toDmmmyyyy` (first variant, src lines 37-57):
try the JS `Date` parse and re-format on success; otherwise try the
strict `DD-MMM-YYYY` regex with month-membership, day 1-31 and
year 1900-2100 checks; return "" when both fail.  The JS `indexOf m >= 0`
membership test is `MONTHS.contains`. -/
def toDmmmyyyy (input : String) : String :=
  match jsDateParse input with
  | some d => pad2 d.day ++ "-" ++ (MONTHS.getD (d.month - 1) "") ++ "-" ++ toString d.year
  | none =>
    match ddMmmMatch input with
    | some (dd, mon, yyyy) =>
      let up := jsToUpper mon
      let ndd := strNat dd
      let ny := strNat yyyy
      if MONTHS.contains up && decide (1 ≤ ndd) && decide (ndd ≤ 31) &&
         decide (1900 ≤ ny) && decide (ny ≤ 2100) then
        dd ++ "-" ++ up ++ "-" ++ yyyy
      else ""
    | none => ""

/-- Return type of `validateDmmmyyyy`: JS `true | string`. -/
inductive ValidateOutcome
  | valid
  | invalid (msg : String)
deriving DecidableEq, Repr

/-- The export gate `validateDmmmyyyy` (src lines 59-62): valid exactly
when the normalized string is truthy (non-empty). -/
def validateDmmmyyyy (input : String) : ValidateOutcome :=
  let out := toDmmmyyyy input
  if out = "" then .invalid "Use DD-MMM-YYYY (e.g., 28-AUG-2025)" else .valid

/-- Model of the second variant's regex `^(\d{2})-([A-Z]{3})-(\d{4})$`
(applied after `trim().toUpperCase()`, hence uppercase letters only). -/
def ddMmmUpperMatch (s : String) : Option (String × String × String) :=
  match s.data with
  | [d1, d2, h1, m1, m2, m3, h2, y1, y2, y3, y4] =>
    if d1.isDigit && d2.isDigit && h1 == '-' && m1.isUpper && m2.isUpper &&
       m3.isUpper && h2 == '-' && y1.isDigit && y2.isDigit && y3.isDigit &&
       y4.isDigit then
      some (⟨[d1, d2]⟩, ⟨[m1, m2, m3]⟩, ⟨[y1, y2, y3, y4]⟩)
    else none
  | _ => none

/-- The strict validator `isValidDDMMMYYYY` of the second variant
(src lines 719-734): year 1900-2100, month in `MONTHS`, day 1-31,
30-day months capped at 30 and February capped at 29. -/
def isValidDDMMMYYYY (s : String) : Bool :=
  match ddMmmUpperMatch (jsToUpper (jsTrim s)) with
  | none => false
  | some (dd, mon, yyyy) =>
    let nd := strNat dd
    let ny := strNat yyyy
    if ny < 1900 || ny > 2100 then false
    else if !(MONTHS.contains mon) then false
    else if nd < 1 || nd > 31 then false
    else if ["APR", "JUN", "SEP", "NOV"].contains mon && nd > 30 then false
    else if mon == "FEB" && nd > 29 then false
    else true

example : toDmmmyyyy "2025-08-28" = "28-AUG-2025" := by decide
example : toDmmmyyyy "28-AUG-2025" = "28-AUG-2025" := by decide
example : toDmmmyyyy "31-FEB-2025" = "31-FEB-2025" := by decide
example : toDmmmyyyy "banana" = "" := by decide
example : isValidDDMMMYYYY "31-FEB-2025" = false := by decide
example : isValidDDMMMYYYY "28-aug-2025" = true := by decide

/-- The closed module-type union of the first variant (src lines 109-119). -/
inductive ModuleType
  | consent
  | eligibility
  | screening
  | baseline
  | vitals
  | ecg
  | labs
  | pk
  | physicalExam
  | neuroExam
deriving DecidableEq, Repr, BEq

/-- The string tag of a module type — the value the DOM selector carries. -/
def ModuleType.tag : ModuleType → String
  | .consent => "consent"
  | .eligibility => "eligibility"
  | .screening => "screening"
  | .baseline => "baseline"
  | .vitals => "vitals"
  | .ecg => "ecg"
  | .labs => "labs"
  | .pk => "pk"
  | .physicalExam => "physicalExam"
  | .neuroExam => "neuroExam"

/-- A catalog entry of `LIBRARY`: type tag, display label, and the
optional `repeatable?` flag (absent in the source means not repeatable). -/
structure LibEntry where
  value : ModuleType
  label : String
  repeatable : Bool
deriving DecidableEq, Repr

/-- The module catalog `LIBRARY` of the first variant (src lines 129-140). -/
def LIBRARY : List LibEntry :=
  [{ value := .vitals, label := "Vitals (°C/°F, HR, BP, etc.)", repeatable := true },
   { value := .ecg, label := "ECG (with Repeat / N/A option)", repeatable := true },
   { value := .labs, label := "Labs & Specimen Collection", repeatable := false },
   { value := .pk, label := "PK Collection (optional per protocol)", repeatable := false },
   { value := .physicalExam, label := "Physical Exam (Investigator)", repeatable := false },
   { value := .neuroExam, label := "Neurological Exam (Investigator)", repeatable := false },
   { value := .consent, label := "Informed Consent Checklist", repeatable := false },
   { value := .eligibility, label := "Eligibility Checklist", repeatable := false },
   { value := .screening, label := "Screening Visit", repeatable := false },
   { value := .baseline, label := "Baseline / Visit 1", repeatable := false }]

/-- A user-created module instance (src lines 121-127).  `repeatCount`
is a JS number, modelled as `Int`; `data` is the optional free-form bag. -/
structure ModuleInstance where
  id : String
  type : ModuleType
  title : String
  repeatCount : Option Int
  data : Option (List (String × String))
deriving DecidableEq, Repr

/-- The `addModule` handler (src lines 300-312) seen at the raw DOM level,
where the selected tag is a plain string (the `as ModuleType` cast in the
`onChange` handler is unchecked).  The source looks the tag up with
`LIBRARY.find(...)!`; when the tag is unknown the non-null assertion is
wrong and reading `meta.value` throws a TypeError, so no new instance
list is produced — modelled as `none`.  `nid` is the value drawn by
`newId()` (a random 7-character base-36 string). -/
def addModuleRaw (mods : List ModuleInstance) (toAdd : String) (nid : String) :
    Option (List ModuleInstance) :=
  match LIBRARY.find? (fun l => l.value.tag == toAdd) with
  | some meta =>
    some (mods ++ [{ id := nid, type := meta.value, title := meta.label,
                     repeatCount := if meta.repeatable then some 1 else none,
                     data := some [] }])
  | none => none

/-- The `addModule` handler (src lines 300-312) at the type it is written
at: `toAdd : ModuleType` is one of the closed union, so the catalog
lookup always succeeds and the non-null assertion is sound; the `none`
branch of the lookup is unreachable (kept as the identity to make the
function total). -/
def addModule (mods : List ModuleInstance) (toAdd : ModuleType) (nid : String) :
    List ModuleInstance :=
  match LIBRARY.find? (fun l => l.value == toAdd) with
  | some meta =>
    mods ++ [{ id := nid, type := meta.value, title := meta.label,
               repeatCount := if meta.repeatable then some 1 else none,
               data := some [] }]
  | none => mods

/-- The `removeModule` handler (src lines 314-316):
`setMods((m) => m.filter((x) => x.id !== id))`. -/
def removeModule (mods : List ModuleInstance) (i : String) : List ModuleInstance :=
  mods.filter (fun x => x.id != i)

/-- The arrow callback `changeRepeat` maps over the list (src lines
320-324): on the instance with the given id, when its type is one of the
two repeatable ones, set the repeat count to
`Math.max(1, (x.repeatCount ?? 1) + delta)`; otherwise keep the element
unchanged. -/
def repStep (i : String) (delta : Int) (x : ModuleInstance) : ModuleInstance :=
  if x.id = i ∧ (x.type = .vitals ∨ x.type = .ecg) then
    { x with repeatCount := some (max 1 (x.repeatCount.getD 1 + delta)) }
  else x

/-- The `changeRepeat` handler (src lines 318-326): map the per-element
update over the instance list. -/
def changeRepeat (mods : List ModuleInstance) (i : String) (delta : Int) :
    List ModuleInstance :=
  mods.map (repStep i delta)

/-- One user action on the module-instance store. -/
inductive StoreAction
  | add (t : ModuleType) (nid : String)
  | remove (i : String)
  | rep (i : String) (delta : Int)

/-- Effect of one store action on the instance list. -/
def applyAction (mods : List ModuleInstance) : StoreAction → List ModuleInstance
  | .add t nid => addModule mods t nid
  | .remove i => removeModule mods i
  | .rep i delta => changeRepeat mods i delta

/-- The reachable states of the instance store: the empty initial list,
closed under the three user actions. -/
inductive ReachableMods : List ModuleInstance → Prop
  | init : ReachableMods []
  | step (a : StoreAction) {m : List ModuleInstance} :
      ReachableMods m → ReachableMods (applyAction m a)

example : addModuleRaw [] "bogus" "a1b2c3d" = none := by decide
example : (addModule [] .vitals "a1b2c3d").length = 1 := by decide
example :
    changeRepeat (addModule [] .vitals "a1b2c3d") "a1b2c3d" (-5) =
      [{ id := "a1b2c3d", type := .vitals, title := "Vitals (°C/°F, HR, BP, etc.)",
         repeatCount := some 1, data := some [] }] := by decide

/-- The export renderer `buildModuleDocx` of the first variant
(src lines 161-251), modelled as the ordered list of the literal text
strings of the paragraphs it emits: the section heading (the frozen
instance title) followed by the per-type content, with the per-reading
blocks of the two repeatable types repeated once per loop iteration
(`for i = 1..n` with `n = inst.repeatCount ?? 1`; a non-positive count
yields no iterations, as in JS). -/
def buildModuleDocx (inst : ModuleInstance) : List String :=
  [inst.title] ++
  match inst.type with
  | .vitals =>
    let n := (inst.repeatCount.getD 1).toNat
    ["Position: Sitting ☐  Supine ☐  Standing ☐   Device: ______"] ++
    (List.range n).flatMap (fun i =>
      ["Reading " ++ toString (i + 1),
       "Time ____:____  HR ___  BP ___/___  RR ___  Temp ___°C (___°F)  SpO2 ___%",
       "Weight ___ kg  Height ___ cm  BMI ___ kg/m²  (omit if remote)"]) ++
    ["Investigator (print/sign/date): ________________________________"]
  | .ecg =>
    let n := (inst.repeatCount.getD 1).toNat
    ["12-lead ECG per protocol. Record times & any repeats."] ++
    (List.range n).map (fun i =>
      "ECG " ++ toString (i + 1) ++ ":  Date ____-___-____  Time ____:____  QTc ___ ms  Rhythm ____.  Repeat? Yes ☐  No ☐  N/A ☐") ++
    ["Investigator (print/sign/date): ________________________________"]
  | .labs =>
    ["Specimen | Date | Time | Fasting? | Volume | Tube | Collected By | Processed? | Centrifuge | Frozen Temp | Shipped? | Courier | Notes"]
  | .pk =>
    ["PK per protocol (only if required).",
     "Timepoint | Actual Time | Volume | Tube/Label | Handling | Notes"]
  | .physicalExam =>
    ["Focused/Full Physical Exam (check systems, document abnormals):",
     "General | HEENT | Cardiac | Respiratory | Abdomen | Musculoskeletal | Skin",
     "Findings / Notes: _______________________________________________________________",
     "Investigator (print/sign/date): ________________________________"]
  | .neuroExam =>
    ["Neurological Exam (document abnormals/changes):",
     "Mental status | Cranial nerves | Motor | Sensory | Reflexes | Coordination | Gait",
     "Findings / Notes: _______________________________________________________________",
     "Investigator (print/sign/date): ________________________________"]
  | .consent =>
    ["ICF Version/Date: __________    IRB: __________",
     "Private area used; identity verified",
     "Provided IRB-approved ICF and time to review",
     "Discussed purpose, procedures, risks/benefits, alternatives",
     "Questions answered; no coercion/undue influence",
     "Assessed comprehension (teach-back)",
     "Signatures obtained before any procedures",
     "Signature Times (24-hr): Participant ____:____  LAR ____:____  Person Obtaining Consent ____:____"]
  | .eligibility =>
    ["INCLUSION CRITERIA:",
     "1) ______________________    Met ☐    Not Met ☐    Evidence: __________",
     "2) ______________________    Met ☐    Not Met ☐    Evidence: __________",
     "3) ______________________    Met ☐    Not Met ☐    Evidence: __________",
     "EXCLUSION CRITERIA:",
     "1) ______________________    Absent ☐    Present (exclusion) ☐    Evidence: __________",
     "2) ______________________    Absent ☐    Present (exclusion) ☐    Evidence: __________",
     "3) ______________________    Absent ☐    Present (exclusion) ☐    Evidence: __________"]
  | .screening =>
    ["Pre-consent procedures performed: None ☐  (If any) __________",
     "Medical history obtained; updates documented",
     "Physical exam performed; abnormal findings documented",
     "Vitals (HR/BP/RR/Temp/SpO2/Wt/Ht)",
     "Con meds reviewed; changes recorded",
     "Labs/ECG per protocol; collection times recorded"]
  | .baseline =>
    ["Randomization performed?  Yes ☐  No ☐    Code: ______",
     "Visit procedures completed per protocol",
     "Study drug/device dispensed; lot/kit/qty/exp recorded",
     "Instructions provided (dose, storage, diary)"]

/-- The preview renderer `ModuleCard` of the first variant
(src lines 362-510), modelled as the ordered list of the literal text
nodes its document-content area renders: the card title (the frozen
instance title) followed by the flattened JSX text of the per-type body,
with one block per `Array.from(\x7b length: inst.repeatCount ?? 1 \x7d)`
element for the two repeatable types.  Adjacent inline text separated
only by an element boundary is flattened to one string with the
single-space separation of the JSX source, and HTML `nbsp` entities
become U+00A0.  The Repeat −/+ and Remove controls are UI chrome, not
document prompts, and are not content of the rendered document. -/
def moduleCardPrompts (inst : ModuleInstance) : List String :=
  [inst.title] ++
  match inst.type with
  | .vitals =>
    let n := (inst.repeatCount.getD 1).toNat
    ["Position: Sitting ☐  Supine ☐  Standing ☐ Device: ______"] ++
    (List.range n).flatMap (fun i =>
      ["Reading " ++ toString (i + 1),
       "Time ____:____  HR ___  BP ___/___  RR ___  Temp ___°C (___°F)  SpO2 ___%",
       "Weight ___ kg  Height ___ cm  BMI ___ kg/m²  (omit if remote)"]) ++
    ["Investigator (print/sign/date): ________________________________"]
  | .ecg =>
    let n := (inst.repeatCount.getD 1).toNat
    ["12-lead ECG per protocol. Record times & any repeats."] ++
    (List.range n).flatMap (fun i =>
      ["ECG " ++ toString (i + 1),
       "Date ____-___-____  Time ____:____  QTc ___ ms  Rhythm ____.  Repeat? Yes ☐  No ☐  N/A ☐"]) ++
    ["Investigator (print/sign/date): ________________________________"]
  | .labs =>
    ["Specimen | Date | Time | Fasting? | Volume | Tube | Collected By | Processed? | Centrifuge | Frozen Temp | Shipped? | Courier | Notes"]
  | .pk =>
    ["PK per protocol (only if required). Timepoint | Actual Time | Volume | Tube/Label | Handling | Notes"]
  | .physicalExam =>
    ["Focused/Full Physical Exam (document abnormals):",
     "General · HEENT · Cardiac · Respiratory · Abdomen · Musculoskeletal · Skin",
     "Findings / Notes: _____________________________________________",
     "Investigator (print/sign/date): ________________________________"]
  | .neuroExam =>
    ["Neurological Exam (document abnormals/changes):",
     "Mental status · Cranial nerves · Motor · Sensory · Reflexes · Coordination · Gait",
     "Findings / Notes: _____________________________________________",
     "Investigator (print/sign/date): ________________________________"]
  | .consent =>
    ["ICF Version/Date: __________ \u00A0\u00A0 IRB: __________",
     "Private area used; identity verified",
     "Provided IRB-approved ICF and time to review",
     "Discussed purpose, procedures, risks/benefits, alternatives",
     "Questions answered; no coercion/undue influence",
     "Assessed comprehension (teach-back)",
     "Signatures obtained before any procedures",
     "Signature Times (24-hr): Participant ____:____  LAR ____:____  POC ____:____"]
  | .eligibility =>
    ["Inclusion Criteria",
     "1) ______________________ \u00A0\u00A0 Met ☐  Not Met ☐  Evidence: __________",
     "2) ______________________ \u00A0\u00A0 Met ☐  Not Met ☐  Evidence: __________",
     "3) ______________________ \u00A0\u00A0 Met ☐  Not Met ☐  Evidence: __________",
     "Exclusion Criteria",
     "1) ______________________ \u00A0\u00A0 Absent ☐  Present (exclusion) ☐  Evidence: __________",
     "2) ______________________ \u00A0\u00A0 Absent ☐  Present (exclusion) ☐  Evidence: __________",
     "3) ______________________ \u00A0\u00A0 Absent ☐  Present (exclusion) ☐  Evidence: __________"]
  | .screening =>
    ["Pre-consent procedures performed: None ☐  (If any) __________",
     "Medical history obtained; updates documented",
     "Physical exam performed; abnormal findings documented",
     "Vitals (HR/BP/RR/Temp/SpO2/Wt/Ht)",
     "Labs/ECG per protocol; collection times recorded"]
  | .baseline =>
    ["Randomization performed?  Yes ☐  No ☐    Code: ______",
     "Visit procedures completed per protocol",
     "Study drug/device dispensed; lot/kit/qty/exp recorded",
     "Instructions provided (dose, storage, diary)"]

/-- The fixed header-field record of the first variant (the eight keys
its form edits; an absent key renders as the empty string). -/
structure HeaderFields where
  protocol : String
  title : String
  site : String
  pi : String
  subjectId : String
  initials : String
  visit : String
  visitDate : String
deriving DecidableEq, Repr

/-- Brand constants of the first variant (src lines 26-30). -/
structure Brand where
  name : String
  disclaimer : String

/-- The `BRAND` constant of the first variant. -/
def BRAND : Brand :=
  { name := "Research Source Consulting",
    disclaimer := "Complete in real time. Correct with single line, date/initial. Use 24-hr time. Do not record PHI beyond protocol requirements." }

/-- JS `s || " "`: a blank header value renders as a single space. -/
def orSpace (s : String) : String := if s = "" then " " else s

/-- Text lines of the docx header table `HeaderTable` (src lines 67-106);
the visit date goes through the normalizer before the blank fallback. -/
def headerTableTexts (fields : HeaderFields) : List String :=
  ["Protocol No: " ++ orSpace fields.protocol,
   "Protocol Title: " ++ orSpace fields.title,
   "Site No: " ++ orSpace fields.site ++ "    " ++ "PI: " ++ orSpace fields.pi,
   "Subject ID: " ++ orSpace fields.subjectId ++ "    " ++ "Initials: " ++ orSpace fields.initials,
   "Visit: " ++ orSpace fields.visit,
   "Visit Date: " ++ orSpace (toDmmmyyyy fields.visitDate)]

/-- The document builder `buildDoc` (src lines 253-269), modelled as the
ordered list of text content: brand heading, version line, header table,
disclaimer, then every module instance rendered by `buildModuleDocx` in
list order. -/
def buildDoc (mods : List ModuleInstance) (fields : HeaderFields) : List String :=
  [BRAND.name, "Source Version: v1.1"] ++ headerTableTexts fields ++
    [BRAND.disclaimer] ++ mods.flatMap buildModuleDocx

/-- The component state the export handler reads and writes: header
fields, module instances, and the status message. -/
structure AppState where
  fields : HeaderFields
  mods : List ModuleInstance
  msg : Option String
deriving DecidableEq, Repr

/-- The export handler `handleDownloadDocx` (src lines 328-342): when
the visit date is non-empty and fails validation, set the message to the
validation string and return without building (`none`); otherwise build
the document and report success.  The result pairs the new state with
the document offered for download. -/
def handleDownloadDocx (st : AppState) : AppState × Option (List String) :=
  if st.fields.visitDate ≠ "" then
    match validateDmmmyyyy st.fields.visitDate with
    | .invalid m => ({ st with msg := some m }, none)
    | .valid =>
      ({ st with msg := some "Downloaded .docx" },
       some (buildDoc st.mods st.fields))
  else
    ({ st with msg := some "Downloaded .docx" },
     some (buildDoc st.mods st.fields))

/-- The visit-date value the on-screen header preview shows
(src line 356): the normalized date, blank when normalization fails. -/
def headerPreviewVisitDate (fields : HeaderFields) : String :=
  toDmmmyyyy fields.visitDate

/-- A concrete screening instance, as `addModule` creates it (title
frozen from the catalog label of the screening entry). -/
def screeningInst : ModuleInstance :=
  { id := "m1", type := .screening, title := "Screening Visit",
    repeatCount := none, data := some [] }

/-- Claim C3: the date normalizer maps both "2025-08-28" (the ISO shape,
through the JS Date parse) and "28-AUG-2025" (already canonical, through
the strict regex) to the canonical string "28-AUG-2025". -/
theorem toDmmmyyyy_iso_and_canonical :
    toDmmmyyyy "2025-08-28" = "28-AUG-2025" ∧
    toDmmmyyyy "28-AUG-2025" = "28-AUG-2025" := by
  decide

/-- Claim C2, counterexample: the claim says normalization of
"31-FEB-2025" produces the empty/invalid result, but the normalizer
`toDmmmyyyy` does not reject it — its regex branch only checks day 1-31
with no per-month cap, so the result is non-empty. -/
theorem toDmmmyyyy_accepts_31feb :
    toDmmmyyyy "31-FEB-2025" ≠ "" := by
  decide

/-- Claim C2, amended: the strict validator `isValidDDMMMYYYY` of the
second variant rejects "31-FEB-2025" (February capped at 29), but the
normalizer `toDmmmyyyy` of the first variant enforces no February cap:
it returns "31-FEB-2025" unchanged, and the first variant's export gate
`validateDmmmyyyy` therefore accepts the date. -/
theorem feb_cap_only_in_strict_validator :
    isValidDDMMMYYYY "31-FEB-2025" = false ∧
    toDmmmyyyy "31-FEB-2025" = "31-FEB-2025" ∧
    validateDmmmyyyy "31-FEB-2025" = .valid := by
  decide

/-- Claim C1: the dual-rendering contract fails on the code.  For a
screening instance the export renderer emits the con-meds prompt
"Con meds reviewed; changes recorded" (src line 237) while the preview
renderer omits it (src lines 486-496 render only five screening
bullets), so the two literal prompt sets are not equal — against the
spec's lock-step contract and the source's own header note that the
docx mirrors the preview content. -/
theorem dualRender_screening_drift :
    "Con meds reviewed; changes recorded" ∈ buildModuleDocx screeningInst ∧
    "Con meds reviewed; changes recorded" ∉ moduleCardPrompts screeningInst ∧
    buildModuleDocx screeningInst ≠ moduleCardPrompts screeningInst := by
  decide

/-- Claim C9, counterexample: the claim says an unknown tag is a
defensive no-op that does not crash, but the catalog lookup of
`addModule` ends in a non-null assertion, so an unknown tag makes the
update throw instead of returning the list unchanged (modelled as
`none`, where a no-op would be `some []`). -/
theorem addModuleRaw_unknown_tag_throws :
    addModuleRaw [] "bogus" "a1b2c3d" = none := by
  decide

/-- Claim C9, amended: calling add with a tag that resolves to no
catalog entry never commits a modified instance list, but it is not a
defensive no-op: the non-null assertion on the failed lookup throws
(modelled as `none`).  Such a tag cannot arise through the typed
selector, whose tags all resolve. -/
theorem addModuleRaw_unknown_tag_behavior :
    (∀ (mods : List ModuleInstance) (tag nid : String),
        (∀ e ∈ LIBRARY, e.value.tag ≠ tag) → addModuleRaw mods tag nid = none) ∧
    (∀ (mods : List ModuleInstance) (t : ModuleType) (nid : String),
        addModuleRaw mods t.tag nid ≠ none) := by
  constructor
  · intro mods tag nid h
    unfold addModuleRaw
    have hfind : LIBRARY.find? (fun l => l.value.tag == tag) = none := by
      rw [List.find?_eq_none]
      intro e he
      simpa using h e he
    rw [hfind]
  · intro mods t nid
    cases t <;> exact fun h => Option.noConfusion h

/-- Claim C9, witness: the amended theorem applied at a concrete
unknown tag. -/
theorem addModuleRaw_unknown_tag_behavior_witness :
    addModuleRaw [] "unknownTag" "z9y8x7w" = none :=
  addModuleRaw_unknown_tag_behavior.1 [] "unknownTag" "z9y8x7w" (by decide)

/-- Claim C10: the export gate `validateDmmmyyyy` returns valid exactly
when `toDmmmyyyy` returns a non-empty string, and otherwise returns the
fixed error message; hence, for a non-empty visit date, the export
handler refuses to build a document exactly when the preview renders a
blank date. -/
theorem validateDmmmyyyy_agrees_with_toDmmmyyyy (s : String) (st : AppState) :
    (validateDmmmyyyy s = .valid ↔ toDmmmyyyy s ≠ "") ∧
    (validateDmmmyyyy s = .invalid "Use DD-MMM-YYYY (e.g., 28-AUG-2025)" ↔
      toDmmmyyyy s = "") ∧
    (st.fields.visitDate = s → s ≠ "" →
      ((handleDownloadDocx st).2 = none ↔ headerPreviewVisitDate st.fields = "")) := by
  refine ⟨?_, ?_, ?_⟩
  · by_cases h : toDmmmyyyy s = "" <;> simp [validateDmmmyyyy, h]
  · by_cases h : toDmmmyyyy s = "" <;> simp [validateDmmmyyyy, h]
  · intro hs hne
    unfold handleDownloadDocx headerPreviewVisitDate
    rw [hs]
    rw [if_pos hne]
    by_cases h : toDmmmyyyy s = "" <;> simp [validateDmmmyyyy, hs, h]

/-- Claim C10, witness: the agreement at a concrete invalid date. -/
theorem validateDmmmyyyy_agrees_witness :
    (validateDmmmyyyy "banana" = .valid ↔ toDmmmyyyy "banana" ≠ "") ∧
    (validateDmmmyyyy "banana" = .invalid "Use DD-MMM-YYYY (e.g., 28-AUG-2025)" ↔
      toDmmmyyyy "banana" = "") ∧
    (({ fields := { protocol := "", title := "", site := "", pi := "",
                    subjectId := "", initials := "", visit := "",
                    visitDate := "banana" },
        mods := [], msg := none } : AppState).fields.visitDate = "banana" →
      "banana" ≠ "" →
      ((handleDownloadDocx
          { fields := { protocol := "", title := "", site := "", pi := "",
                        subjectId := "", initials := "", visit := "",
                        visitDate := "banana" },
            mods := [], msg := none }).2 = none ↔
        headerPreviewVisitDate
          { protocol := "", title := "", site := "", pi := "",
            subjectId := "", initials := "", visit := "",
            visitDate := "banana" } = "")) :=
  validateDmmmyyyy_agrees_with_toDmmmyyyy "banana"
    { fields := { protocol := "", title := "", site := "", pi := "",
                  subjectId := "", initials := "", visit := "",
                  visitDate := "banana" },
      mods := [], msg := none }

/-- Claim C5: an input failing date validation yields the empty
normalization result (no exception is modelled — the embedded normalizer
is total); and when the visit-date field is non-empty and fails
validation, the export handler refuses to proceed: it builds no
document, sets only the message (to the fixed validation string),
leaves fields and modules unchanged — while the preview still renders,
showing the blank normalized date. -/
theorem export_refuses_invalid_visitDate (s : String) (st : AppState) :
    (validateDmmmyyyy s ≠ .valid → toDmmmyyyy s = "") ∧
    (st.fields.visitDate ≠ "" → toDmmmyyyy st.fields.visitDate = "" →
      (handleDownloadDocx st).2 = none ∧
      (handleDownloadDocx st).1.fields = st.fields ∧
      (handleDownloadDocx st).1.mods = st.mods ∧
      (handleDownloadDocx st).1.msg = some "Use DD-MMM-YYYY (e.g., 28-AUG-2025)" ∧
      headerPreviewVisitDate st.fields = "") := by
  constructor
  · intro h
    by_cases hv : toDmmmyyyy s = ""
    · exact hv
    · exact absurd (by simp [validateDmmmyyyy, hv]) h
  · intro hne hval
    unfold handleDownloadDocx headerPreviewVisitDate
    rw [if_pos hne]
    simp [validateDmmmyyyy, hval]

/-- Claim C5, witness: a state with the invalid visit date "hello" and
one module; the export refuses, preserves state, and the preview date is
blank. -/
theorem export_refuses_invalid_visitDate_witness :
    (validateDmmmyyyy "hello" ≠ .valid → toDmmmyyyy "hello" = "") ∧
    (({ fields := { protocol := "P-1", title := "T", site := "01", pi := "PI",
                    subjectId := "001", initials := "AB", visit := "V1",
                    visitDate := "hello" },
        mods := [screeningInst], msg := none } : AppState).fields.visitDate ≠ "" →
      toDmmmyyyy ({ fields := { protocol := "P-1", title := "T", site := "01",
                                pi := "PI", subjectId := "001", initials := "AB",
                                visit := "V1", visitDate := "hello" },
                    mods := [screeningInst], msg := none } : AppState).fields.visitDate = "" →
      (handleDownloadDocx
          { fields := { protocol := "P-1", title := "T", site := "01", pi := "PI",
                        subjectId := "001", initials := "AB", visit := "V1",
                        visitDate := "hello" },
            mods := [screeningInst], msg := none }).2 = none ∧
      (handleDownloadDocx
          { fields := { protocol := "P-1", title := "T", site := "01", pi := "PI",
                        subjectId := "001", initials := "AB", visit := "V1",
                        visitDate := "hello" },
            mods := [screeningInst], msg := none }).1.fields =
        ({ fields := { protocol := "P-1", title := "T", site := "01", pi := "PI",
                       subjectId := "001", initials := "AB", visit := "V1",
                       visitDate := "hello" },
           mods := [screeningInst], msg := none } : AppState).fields ∧
      (handleDownloadDocx
          { fields := { protocol := "P-1", title := "T", site := "01", pi := "PI",
                        subjectId := "001", initials := "AB", visit := "V1",
                        visitDate := "hello" },
            mods := [screeningInst], msg := none }).1.mods =
        ({ fields := { protocol := "P-1", title := "T", site := "01", pi := "PI",
                       subjectId := "001", initials := "AB", visit := "V1",
                       visitDate := "hello" },
           mods := [screeningInst], msg := none } : AppState).mods ∧
      (handleDownloadDocx
          { fields := { protocol := "P-1", title := "T", site := "01", pi := "PI",
                        subjectId := "001", initials := "AB", visit := "V1",
                        visitDate := "hello" },
            mods := [screeningInst], msg := none }).1.msg =
        some "Use DD-MMM-YYYY (e.g., 28-AUG-2025)" ∧
      headerPreviewVisitDate
        { protocol := "P-1", title := "T", site := "01", pi := "PI",
          subjectId := "001", initials := "AB", visit := "V1",
          visitDate := "hello" } = "") :=
  export_refuses_invalid_visitDate "hello"
    { fields := { protocol := "P-1", title := "T", site := "01", pi := "PI",
                  subjectId := "001", initials := "AB", visit := "V1",
                  visitDate := "hello" },
      mods := [screeningInst], msg := none }

/-- Catalog-lookup structure of `addModule`: for every type of the
closed union the lookup succeeds with its unique catalog entry, and the
handler appends exactly the instance built from it. -/
lemma addModule_exists_meta (mods : List ModuleInstance) (t : ModuleType)
    (nid : String) :
    ∃ meta, meta ∈ LIBRARY ∧ meta.value = t ∧
      addModule mods t nid =
        mods ++ [{ id := nid, type := t, title := meta.label,
                   repeatCount := if meta.repeatable then some 1 else none,
                   data := some [] }] := by
  cases t
  case consent =>
    exact ⟨{ value := .consent, label := "Informed Consent Checklist",
             repeatable := false }, by decide, rfl, rfl⟩
  case eligibility =>
    exact ⟨{ value := .eligibility, label := "Eligibility Checklist",
             repeatable := false }, by decide, rfl, rfl⟩
  case screening =>
    exact ⟨{ value := .screening, label := "Screening Visit",
             repeatable := false }, by decide, rfl, rfl⟩
  case baseline =>
    exact ⟨{ value := .baseline, label := "Baseline / Visit 1",
             repeatable := false }, by decide, rfl, rfl⟩
  case vitals =>
    exact ⟨{ value := .vitals, label := "Vitals (°C/°F, HR, BP, etc.)",
             repeatable := true }, by decide, rfl, rfl⟩
  case ecg =>
    exact ⟨{ value := .ecg, label := "ECG (with Repeat / N/A option)",
             repeatable := true }, by decide, rfl, rfl⟩
  case labs =>
    exact ⟨{ value := .labs, label := "Labs & Specimen Collection",
             repeatable := false }, by decide, rfl, rfl⟩
  case pk =>
    exact ⟨{ value := .pk, label := "PK Collection (optional per protocol)",
             repeatable := false }, by decide, rfl, rfl⟩
  case physicalExam =>
    exact ⟨{ value := .physicalExam, label := "Physical Exam (Investigator)",
             repeatable := false }, by decide, rfl, rfl⟩
  case neuroExam =>
    exact ⟨{ value := .neuroExam, label := "Neurological Exam (Investigator)",
             repeatable := false }, by decide, rfl, rfl⟩

/-- Claim C6: for every known catalog type, `addModule` appends exactly
one new instance at the end of the list — id the freshly drawn `nid`
(distinct from every existing id, by the freshness hypothesis on the
generator), title copied from the catalog entry's label, repeat count 1
when the entry is repeatable and absent otherwise — and the existing
prefix of the list is untouched. -/
theorem addModule_appends_fresh_instance (mods : List ModuleInstance)
    (t : ModuleType) (nid : String)
    (hfresh : nid ∉ mods.map ModuleInstance.id) :
    ∃ meta, meta ∈ LIBRARY ∧ meta.value = t ∧
      addModule mods t nid =
        mods ++ [{ id := nid, type := t, title := meta.label,
                   repeatCount := if meta.repeatable then some 1 else none,
                   data := some [] }] ∧
      (addModule mods t nid).length = mods.length + 1 ∧
      (addModule mods t nid).take mods.length = mods ∧
      nid ∉ mods.map ModuleInstance.id := by
  obtain ⟨meta, hmem, hval, heq⟩ := addModule_exists_meta mods t nid
  refine ⟨meta, hmem, hval, heq, ?_, ?_, hfresh⟩
  · rw [heq]; simp
  · rw [heq]; exact List.take_left mods _

/-- Claim C6, witness: adding a vitals module to a store holding one
screening instance appends exactly the vitals instance with repeat
count 1. -/
theorem addModule_appends_fresh_instance_witness :
    ∃ meta, meta ∈ LIBRARY ∧ meta.value = ModuleType.vitals ∧
      addModule [screeningInst] .vitals "a1b2c3d" =
        [screeningInst] ++
          [{ id := "a1b2c3d", type := .vitals, title := meta.label,
             repeatCount := if meta.repeatable then some 1 else none,
             data := some [] }] ∧
      (addModule [screeningInst] .vitals "a1b2c3d").length =
        [screeningInst].length + 1 ∧
      (addModule [screeningInst] .vitals "a1b2c3d").take [screeningInst].length =
        [screeningInst] ∧
      "a1b2c3d" ∉ [screeningInst].map ModuleInstance.id :=
  addModule_appends_fresh_instance [screeningInst] .vitals "a1b2c3d" (by decide)

/-- Claim C8: with pairwise-distinct instance ids, removing a present id
deletes exactly that instance — the list splits around it, the result is
the two surrounding parts in order, and the length drops by one — while
removing an absent id leaves the list unchanged. -/
theorem removeModule_deletes_exactly (mods : List ModuleInstance) (i : String)
    (m : ModuleInstance) (hnd : (mods.map ModuleInstance.id).Nodup)
    (hm : m ∈ mods) (hid : m.id = i) :
    (∃ l₁ l₂, mods = l₁ ++ m :: l₂ ∧ removeModule mods i = l₁ ++ l₂ ∧
      (removeModule mods i).length + 1 = mods.length) ∧
    ∀ mods₂ : List ModuleInstance,
      i ∉ mods₂.map ModuleInstance.id → removeModule mods₂ i = mods₂ := by
  constructor
  · obtain ⟨l₁, l₂, rfl⟩ := List.append_of_mem hm
    rw [List.map_append, List.map_cons, List.nodup_append] at hnd
    obtain ⟨-, hnd2, hdisj⟩ := hnd
    have hnotin1 : ∀ x ∈ l₁, x.id ≠ i := by
      intro x hx hxe
      exact hdisj (List.mem_map_of_mem ModuleInstance.id hx)
        (by rw [hxe, ← hid]; exact List.mem_cons_self _ _)
    have hnotin2 : ∀ x ∈ l₂, x.id ≠ i := by
      intro x hx hxe
      rcases List.nodup_cons.mp hnd2 with ⟨hni, -⟩
      exact hni (by rw [hid, ← hxe]; exact List.mem_map_of_mem ModuleInstance.id hx)
    have hrm : removeModule (l₁ ++ m :: l₂) i = l₁ ++ l₂ := by
      unfold removeModule
      rw [List.filter_append, List.filter_cons]
      have : (m.id != i) = false := by simp [hid]
      rw [this]
      rw [List.filter_eq_self.mpr (fun x hx => by simpa using hnotin1 x hx),
          List.filter_eq_self.mpr (fun x hx => by simpa using hnotin2 x hx)]
      simp
    exact ⟨l₁, l₂, rfl, hrm, by rw [hrm]; simp [Nat.add_assoc, Nat.add_comm]⟩
  · intro mods₂ habs
    unfold removeModule
    apply List.filter_eq_self.mpr
    intro x hx
    simp only [bne_iff_ne, ne_eq]
    intro hxe
    exact habs (hxe ▸ List.mem_map_of_mem ModuleInstance.id hx)

/-- Claim C8, witness: removing the screening instance from a two-element
store deletes exactly it, and removing an id absent from a store is a
no-op. -/
theorem removeModule_deletes_exactly_witness :
    (∃ l₁ l₂,
      [screeningInst,
       { id := "a1b2c3d", type := .vitals, title := "Vitals (°C/°F, HR, BP, etc.)",
         repeatCount := some 1, data := some [] }] = l₁ ++ screeningInst :: l₂ ∧
      removeModule
        [screeningInst,
         { id := "a1b2c3d", type := .vitals, title := "Vitals (°C/°F, HR, BP, etc.)",
           repeatCount := some 1, data := some [] }] "m1" = l₁ ++ l₂ ∧
      (removeModule
        [screeningInst,
         { id := "a1b2c3d", type := .vitals, title := "Vitals (°C/°F, HR, BP, etc.)",
           repeatCount := some 1, data := some [] }] "m1").length + 1 =
        [screeningInst,
         { id := "a1b2c3d", type := .vitals, title := "Vitals (°C/°F, HR, BP, etc.)",
           repeatCount := some 1, data := some [] }].length) ∧
    ∀ mods₂ : List ModuleInstance,
      "m1" ∉ mods₂.map ModuleInstance.id → removeModule mods₂ "m1" = mods₂ :=
  removeModule_deletes_exactly
    [screeningInst,
     { id := "a1b2c3d", type := .vitals, title := "Vitals (°C/°F, HR, BP, etc.)",
       repeatCount := some 1, data := some [] }] "m1" screeningInst
    (by decide) (by decide) (by decide)

/-- Claim C7: `changeRepeat` sets a matching repeatable instance's count
to `max(1, current + delta)` (which never drops below 1); it is a no-op
when no element matches both the id and a repeatable type (unknown id or
non-repeatable type); the catalog's repeatable flag coincides with the
handler's hard-coded vitals/ecg test; and in every reachable store state
every repeatable instance carries an integer repeat count of at least 1. -/
theorem changeRepeat_floor_invariant :
    (∀ (mods : List ModuleInstance) (i : String) (delta : Int)
        (m : ModuleInstance), m ∈ mods → m.id = i →
        (m.type = .vitals ∨ m.type = .ecg) →
        { m with repeatCount := some (max 1 (m.repeatCount.getD 1 + delta)) } ∈
          changeRepeat mods i delta ∧
        (1 : Int) ≤ max 1 (m.repeatCount.getD 1 + delta)) ∧
    (∀ (mods : List ModuleInstance) (i : String) (delta : Int),
        (∀ m ∈ mods, m.id = i → ¬(m.type = .vitals ∨ m.type = .ecg)) →
        changeRepeat mods i delta = mods) ∧
    (∀ e ∈ LIBRARY, e.repeatable = true ↔ (e.value = .vitals ∨ e.value = .ecg)) ∧
    (∀ mods, ReachableMods mods → ∀ m ∈ mods,
        (m.type = .vitals ∨ m.type = .ecg) →
        ∃ k : Int, m.repeatCount = some k ∧ 1 ≤ k) := by
  refine ⟨?_, ?_, by decide, ?_⟩
  · intro mods i delta m hm hid hty
    refine ⟨?_, le_max_left 1 _⟩
    have hstep : repStep i delta m =
        { m with repeatCount := some (max 1 (m.repeatCount.getD 1 + delta)) } := by
      unfold repStep
      exact if_pos ⟨hid, hty⟩
    exact hstep ▸ List.mem_map_of_mem (repStep i delta) hm
  · intro mods i delta h
    unfold changeRepeat
    have hstep : ∀ x ∈ mods, repStep i delta x = x := by
      intro x hx
      unfold repStep
      apply if_neg
      rintro ⟨h1, h2⟩
      exact h x hx h1 h2
    calc mods.map (repStep i delta) = mods.map id := List.map_congr_left hstep
      _ = mods := List.map_id mods
  · intro mods hr
    induction hr with
    | init => intro m hm; exact absurd hm (List.not_mem_nil m)
    | step a hr ih =>
      rename_i mods0
      cases a with
      | add t nid =>
        intro x hx hty
        obtain ⟨meta, hmem, hval, heq⟩ := addModule_exists_meta mods0 t nid
        rw [show applyAction mods0 (.add t nid) = addModule mods0 t nid from rfl,
            heq] at hx
        rcases List.mem_append.mp hx with hx | hx
        · exact ih x hx hty
        · rcases List.mem_singleton.mp hx with rfl
          have hrep : meta.repeatable = true := by
            have h3 : ∀ e ∈ LIBRARY,
                e.repeatable = true ↔ (e.value = .vitals ∨ e.value = .ecg) := by
              decide
            exact (h3 meta hmem).mpr (hval ▸ hty)
          exact ⟨1, by simp [hrep], le_refl 1⟩
      | remove i =>
        intro x hx hty
        exact ih x (List.mem_of_mem_filter hx) hty
      | rep i delta =>
        intro x hx hty
        rcases List.mem_map.mp hx with ⟨y, hy, rfl⟩
        by_cases hc : y.id = i ∧ (y.type = .vitals ∨ y.type = .ecg)
        · have hstep : repStep i delta y =
              { y with repeatCount := some (max 1 (y.repeatCount.getD 1 + delta)) } := by
            unfold repStep
            exact if_pos hc
          rw [hstep]
          exact ⟨max 1 (y.repeatCount.getD 1 + delta), rfl, le_max_left 1 _⟩
        · have hstep : repStep i delta y = y := by
            unfold repStep
            exact if_neg hc
          rw [hstep] at hty ⊢
          exact ih y hy hty

/-- Claim C7, witness: decrementing a fresh vitals instance (count 1) by
one keeps the count at 1 (floor); a decrement aimed at a consent
instance is a no-op; the vitals catalog entry is repeatable; and the
state reached by adding a vitals module and decrementing it five times
in one step still carries repeat count 1. -/
theorem changeRepeat_floor_invariant_witness :
    ({ id := "a1b2c3d", type := ModuleType.vitals,
       title := "Vitals (°C/°F, HR, BP, etc.)",
       repeatCount := some (max 1 ((some (1 : Int)).getD 1 + (-1))),
       data := some [] } : ModuleInstance) ∈
      changeRepeat
        [{ id := "a1b2c3d", type := .vitals,
           title := "Vitals (°C/°F, HR, BP, etc.)",
           repeatCount := some 1, data := some [] }] "a1b2c3d" (-1) ∧
    changeRepeat [screeningInst] "m1" (-1) = [screeningInst] ∧
    ∃ k : Int,
      ({ id := "a1b2c3d", type := ModuleType.vitals,
         title := "Vitals (°C/°F, HR, BP, etc.)",
         repeatCount := some 1, data := some [] } : ModuleInstance).repeatCount =
        some k ∧ 1 ≤ k := by
  refine ⟨?_, ?_, ?_⟩
  · exact (changeRepeat_floor_invariant.1
      [{ id := "a1b2c3d", type := .vitals,
         title := "Vitals (°C/°F, HR, BP, etc.)",
         repeatCount := some 1, data := some [] }] "a1b2c3d" (-1)
      { id := "a1b2c3d", type := .vitals,
        title := "Vitals (°C/°F, HR, BP, etc.)",
        repeatCount := some 1, data := some [] }
      (List.mem_singleton.mpr rfl) rfl (Or.inl rfl)).1
  · exact changeRepeat_floor_invariant.2.1 [screeningInst] "m1" (-1)
      (by decide)
  · exact changeRepeat_floor_invariant.2.2.2
      (applyAction (applyAction [] (.add .vitals "a1b2c3d")) (.rep "a1b2c3d" (-5)))
      (ReachableMods.step (.rep "a1b2c3d" (-5))
        (ReachableMods.step (.add .vitals "a1b2c3d") ReachableMods.init))
      { id := "a1b2c3d", type := .vitals,
        title := "Vitals (°C/°F, HR, BP, etc.)",
        repeatCount := some 1, data := some [] }
      (by decide) (Or.inl rfl)

/-- Canonical `DD-MON-YYYY` form: two digits, hyphen, an uppercase
three-letter month drawn from the twelve-element enumeration, hyphen,
four digits, with the day in 1-31 and the year in 1900-2100 (the
format's own validity ranges). -/
def isCanonicalDmmmyyyy (s : String) : Bool :=
  match ddMmmMatch s with
  | some (dd, mon, yyyy) =>
    MONTHS.contains mon && decide (1 ≤ strNat dd) && decide (strNat dd ≤ 31) &&
      decide (1900 ≤ strNat yyyy) && decide (strNat yyyy ≤ 2100)
  | none => false

/-- Inversion of the regex-match model: a successful match exposes the
eleven characters of the subject and the three capture groups. -/
lemma ddMmmMatch_inv {s : String} {dd mon yyyy : String}
    (h : ddMmmMatch s = some (dd, mon, yyyy)) :
    ∃ d1 d2 m1 m2 m3 y1 y2 y3 y4 : Char,
      s.data = [d1, d2, '-', m1, m2, m3, '-', y1, y2, y3, y4] ∧
      dd = ⟨[d1, d2]⟩ ∧ mon = ⟨[m1, m2, m3]⟩ ∧ yyyy = ⟨[y1, y2, y3, y4]⟩ := by
  unfold ddMmmMatch at h
  split at h
  · rename_i d1 d2 h1 m1 m2 m3 h2 y1 y2 y3 y4 heq
    split at h
    · rename_i hcond
      simp only [Bool.and_eq_true, beq_iff_eq] at hcond
      obtain ⟨⟨⟨⟨⟨⟨⟨⟨⟨⟨hd1, hd2⟩, hh1⟩, hm1⟩, hm2⟩, hm3⟩, hh2⟩, hy1⟩, hy2⟩, hy3⟩,
        hy4⟩ := hcond
      subst hh1 hh2
      obtain ⟨hdd, hmon, hyyyy⟩ : (⟨[d1, d2]⟩ : String) = dd ∧
          (⟨[m1, m2, m3]⟩ : String) = mon ∧
          (⟨[y1, y2, y3, y4]⟩ : String) = yyyy := by
        simpa using h
      exact ⟨d1, d2, m1, m2, m3, y1, y2, y3, y4, heq, hdd.symm, hmon.symm,
        hyyyy.symm⟩
    · exact absurd h (by simp)
  · exact absurd h (by simp)

/-- The JS `Date` parse model rejects any string that is not ten
characters long (the ISO date-only shape). -/
lemma jsDateParse_eq_none_of_length_ne_ten {s : String}
    (h : s.data.length ≠ 10) : jsDateParse s = none := by
  unfold jsDateParse
  split
  · rename_i y1 y2 y3 y4 h1 mo1 mo2 h2 d1 d2 heq
    rw [heq] at h
    simp at h
  · rfl

/-- Uppercasing fixes every month abbreviation of the enumeration. -/
lemma jsToUpper_of_month {m : String} (h : MONTHS.contains m = true) :
    jsToUpper m = m := by
  have hm : m ∈ MONTHS := by simpa using h
  fin_cases hm <;> decide

/-- Evaluation of the normalizer on a string the JS `Date` parse rejects
and the strict regex accepts. -/
lemma toDmmmyyyy_of_ddMmmMatch {s : String} {dd mon yyyy : String}
    (hnone : jsDateParse s = none)
    (heq : ddMmmMatch s = some (dd, mon, yyyy)) :
    toDmmmyyyy s =
      (if MONTHS.contains (jsToUpper mon) && decide (1 ≤ strNat dd) &&
          decide (strNat dd ≤ 31) && decide (1900 ≤ strNat yyyy) &&
          decide (strNat yyyy ≤ 2100) then
        dd ++ "-" ++ jsToUpper mon ++ "-" ++ yyyy
      else "") := by
  unfold toDmmmyyyy
  rw [hnone, heq]

/-- Claim C4: the normalizer is idempotent on canonical inputs — for
every string already in valid `DD-MON-YYYY` form (two-digit day in 1-31,
uppercase three-letter month from the twelve-element enumeration,
four-digit year in 1900-2100), `toDmmmyyyy` returns the identical
string. -/
theorem toDmmmyyyy_idempotent_on_canonical (s : String)
    (h : isCanonicalDmmmyyyy s = true) : toDmmmyyyy s = s := by
  unfold isCanonicalDmmmyyyy at h
  split at h
  case h_1 dd mon yyyy heq =>
    obtain ⟨d1, d2, m1, m2, m3, y1, y2, y3, y4, hdata, hdd, hmon, hyyyy⟩ :=
      ddMmmMatch_inv heq
    have hnone : jsDateParse s = none := by
      apply jsDateParse_eq_none_of_length_ne_ten
      rw [hdata]
      simp
    simp only [Bool.and_eq_true, decide_eq_true_eq] at h
    obtain ⟨⟨⟨⟨hcont, hday1⟩, hday2⟩, hyr1⟩, hyr2⟩ := h
    have hup : jsToUpper mon = mon := jsToUpper_of_month hcont
    have hmem : mon ∈ MONTHS := by simpa using hcont
    rw [toDmmmyyyy_of_ddMmmMatch hnone heq, hup,
        if_pos (by simp [hmem, hday1, hday2, hyr1, hyr2])]
    have hs : s = ⟨[d1, d2, '-', m1, m2, m3, '-', y1, y2, y3, y4]⟩ := by
      cases s
      simp_all
    subst hdd hmon hyyyy
    rw [hs]
    rfl
  case h_2 heq =>
    exact absurd h (by simp)

/-- Claim C4, witness: the idempotence theorem at the canonical string
"15-JAN-1999". -/
theorem toDmmmyyyy_idempotent_on_canonical_witness :
    isCanonicalDmmmyyyy "15-JAN-1999" = true ∧
    toDmmmyyyy "15-JAN-1999" = "15-JAN-1999" :=
  ⟨by decide, toDmmmyyyy_idempotent_on_canonical "15-JAN-1999" (by decide)⟩
